import Mathlib

/-!
Shallow embedding of the hospital recommendation engine of the
Medic-chatbot backend (`app/services/hospital_recommendation_service.py`
and the `recommend_by_disease` endpoint of `app/api/endpoints/medical.py`),
together with theorems settling the specification claims about it.

Python floats are modelled as real numbers, Python `None` as `Option`,
database rows as lists of records.  Python truthiness of lists, strings
and numbers is translated explicitly at each use site.
-/

namespace MedicBackend

/-- `HOSPITAL_TYPE_EXCLUDE` from `hospital_recommendation_service.py` line 26:
hospital categories excluded from every candidate query
(tertiary general hospital, convalescent hospital, dental clinic, dental hospital). -/
def HOSPITAL_TYPE_EXCLUDE : List String :=
  ["상급종합병원", "요양병원", "치과의원", "치과병원"]

/-- `HOSPITAL_TYPE_PRIORITY` from lines 27-37: category label → integer priority. -/
def HOSPITAL_TYPE_PRIORITY : List (String × ℤ) :=
  [("의원", 5), ("병원", 5), ("보건지소", 4), ("보건소", 4),
   ("종합병원", 3), ("한의원", 1), ("한방병원", 1)]

/-- `math.radians`: degrees to radians. -/
noncomputable def radians (x : ℝ) : ℝ := x * (Real.pi / 180)

/-- Python `math.atan2 y x`, i.e. the argument of the complex number `x + y*I`. -/
noncomputable def atan2 (y x : ℝ) : ℝ := Complex.arg ⟨x, y⟩

/-- `HospitalRecommendationService.calculate_distance` (lines 39-72):
haversine distance in km between two latitude/longitude points,
with Earth radius 6371.0 km. -/
noncomputable def calculate_distance (lat1 lon1 lat2 lon2 : ℝ) : ℝ :=
  let R : ℝ := 6371
  let lat1_rad := radians lat1
  let lon1_rad := radians lon1
  let lat2_rad := radians lat2
  let lon2_rad := radians lon2
  let dlat := lat2_rad - lat1_rad
  let dlon := lon2_rad - lon1_rad
  let a := Real.sin (dlat / 2) ^ 2 +
    Real.cos lat1_rad * Real.cos lat2_rad * Real.sin (dlon / 2) ^ 2
  let c := 2 * atan2 (Real.sqrt a) (Real.sqrt (1 - a))
  R * c

/-- `len(set(required) & set(held))`: number of distinct required equipment
categories that the hospital also holds. -/
def matchedCount (required held : List String) : ℕ :=
  ((required.dedup).filter (fun x => decide (x ∈ held))).length

/-- Weight selection, lines 95-99: `(W_EQUIP, W_SPEC, W_DIST)` is
`(50, 30, 20)` when `required_equipment` is non-empty (Python truthiness),
`(30, 40, 30)` otherwise. -/
def selectWeights (required_equipment : List String) : ℝ × ℝ × ℝ :=
  if required_equipment ≠ [] then (50, 30, 20) else (30, 40, 30)

/-- Equipment sub-score, lines 101-121.  Non-empty requirement:
`(matched / max(1, len(required))) * W_EQUIP`; empty requirement:
`min(len(held) * max(W_EQUIP/12, 2), W_EQUIP)` where `len(held)` is the raw
length of the held-equipment list. -/
noncomputable def equipment_score_calc
    (W_EQUIP : ℝ) (required held : List String) : ℝ :=
  if required ≠ [] then
    ((matchedCount required held : ℝ) / ((max 1 required.length : ℕ) : ℝ)) * W_EQUIP
  else
    min ((held.length : ℝ) * max (W_EQUIP / 12) 2) W_EQUIP

/-- Specialist sub-score, lines 123-130: the count (None treated as 0) is
clamped into `[0, 100]`, then `min(sqrt(s) * (W_SPEC / 3), W_SPEC)`. -/
noncomputable def specialist_score_calc (W_SPEC : ℝ) (specialist_count : Option ℤ) : ℝ :=
  min (Real.sqrt ((min (max (specialist_count.getD 0) 0) 100 : ℤ) : ℝ) * (W_SPEC / 3)) W_SPEC

/-- Distance sub-score, lines 132-134: denominator `R` is `max_distance_km`
when positive (Python truthiness and `> 0` test) and `5.0` otherwise;
score is `max(0, (R - d)/R) * W_DIST`. -/
noncomputable def distance_score_calc (W_DIST distance_km max_distance_km : ℝ) : ℝ :=
  max 0 (((if 0 < max_distance_km then max_distance_km else 5) - distance_km) /
    (if 0 < max_distance_km then max_distance_km else 5)) * W_DIST

/-- Category priority, lines 138-143: `0` when `hospital_type_name` is falsy
(None or the empty string), otherwise `HOSPITAL_TYPE_PRIORITY.get(name, 2)`. -/
def priority_calc (hospital_type_name : Option String) : ℤ :=
  match hospital_type_name with
  | none => 0
  | some t => if t = "" then 0 else (HOSPITAL_TYPE_PRIORITY.lookup t).getD 2

/-- Result of `calculate_recommendation_score`: the returned final score,
category priority, and the score-breakdown components. -/
structure ScoreResult where
  W_EQUIP : ℝ
  W_SPEC : ℝ
  W_DIST : ℝ
  equipment_score : ℝ
  specialist_score : ℝ
  distance_score : ℝ
  priority : ℤ
  priority_bonus : ℝ
  final_score : ℝ
  matched_count : ℕ
  total_required : ℕ

/-- `HospitalRecommendationService.calculate_recommendation_score`
(lines 74-179), assembled from the component calculations above;
`priority_bonus = (priority - 2) * 0.5` and
`final = equipment + specialist + distance + bonus`. -/
noncomputable def calculate_recommendation_score
    (distance_km : ℝ) (required_equipment hospital_equipment : List String)
    (specialist_count : Option ℤ) (hospital_type_name : Option String)
    (max_distance_km : ℝ) : ScoreResult :=
  { W_EQUIP := (selectWeights required_equipment).1
    W_SPEC := (selectWeights required_equipment).2.1
    W_DIST := (selectWeights required_equipment).2.2
    equipment_score :=
      equipment_score_calc (selectWeights required_equipment).1
        required_equipment hospital_equipment
    specialist_score :=
      specialist_score_calc (selectWeights required_equipment).2.1 specialist_count
    distance_score :=
      distance_score_calc (selectWeights required_equipment).2.2
        distance_km max_distance_km
    priority := priority_calc hospital_type_name
    priority_bonus := ((priority_calc hospital_type_name : ℝ) - 2) * (1 / 2)
    final_score :=
      equipment_score_calc (selectWeights required_equipment).1
        required_equipment hospital_equipment +
      specialist_score_calc (selectWeights required_equipment).2.1 specialist_count +
      distance_score_calc (selectWeights required_equipment).2.2
        distance_km max_distance_km +
      ((priority_calc hospital_type_name : ℝ) - 2) * (1 / 2)
    matched_count :=
      if required_equipment ≠ [] then matchedCount required_equipment hospital_equipment
      else 0
    total_required := required_equipment.length }

/-- A row of the `hospitals` table (the fields the engine reads). -/
structure Hospital where
  id : ℤ
  latitude : ℝ
  longitude : ℝ
  hospital_type_name : Option String

/-- A row of `hospital_departments`: hospital ↔ department link with an
optional specialist count. -/
structure HospitalDepartmentRow where
  hospital_id : ℤ
  department_id : ℤ
  specialist_count : Option ℤ

/-- A row of `department_diseases`: disease ↔ department link. -/
structure DepartmentDiseaseRow where
  department_id : ℤ
  disease_id : ℤ

/-- A row of `hospital_equipment`: held equipment category
(name nullable, soft-delete flag for `deleted_at`). -/
structure HospitalEquipmentRow where
  hospital_id : ℤ
  equipment_category_name : Option String
  deleted : Bool

/-- A row of `disease_equipment_categories`: required equipment category
for a disease (name non-nullable in the schema). -/
structure DiseaseEquipmentRow where
  disease_id : ℤ
  equipment_category_name : String

/-- The read-only database state the recommendation engine consults. -/
structure DB where
  hospitals : List Hospital
  hospitalDepartments : List HospitalDepartmentRow
  departmentDiseases : List DepartmentDiseaseRow
  hospitalEquipment : List HospitalEquipmentRow
  diseaseEquipment : List DiseaseEquipmentRow

/-- `get_required_equipment_for_disease` (lines 181-198): names of the
equipment categories required for the disease. -/
def get_required_equipment_for_disease (db : DB) (disease_id : ℤ) : List String :=
  (db.diseaseEquipment.filter (fun r => decide (r.disease_id = disease_id))).map
    (·.equipment_category_name)

/-- `get_hospital_equipment` (lines 200-223): held category names of a
hospital, non-deleted rows only, dropping null and empty names
(`if equipment[0]` truthiness). -/
def get_hospital_equipment (db : DB) (hospital_id : ℤ) : List String :=
  ((db.hospitalEquipment.filter
      (fun r => decide (r.hospital_id = hospital_id) && !r.deleted)).filterMap
    (·.equipment_category_name)).filter (fun s => decide (s ≠ ""))

/-- `get_specialist_count_for_hospital_and_disease` (lines 458-482): sum of
`specialist_count` (nulls as 0) over the hospital's departments linked to
the disease; 0 when the disease maps to no department. -/
def get_specialist_count_for_hospital_and_disease
    (db : DB) (hospital_id : ℤ) (disease_id : ℤ) : ℤ :=
  let dept_id_list :=
    (db.departmentDiseases.filter (fun r => decide (r.disease_id = disease_id))).map
      (·.department_id)
  if dept_id_list = [] then 0
  else
    ((db.hospitalDepartments.filter
        (fun hd => decide (hd.hospital_id = hospital_id) &&
          decide (hd.department_id ∈ dept_id_list))).map
      (fun hd => hd.specialist_count.getD 0)).sum

/-- `get_hospitals_by_disease_and_location` (lines 225-294): hospitals that
have a department linked to the disease, whose category is not in
`HOSPITAL_TYPE_EXCLUDE` (SQL `NOT IN` drops NULL categories too), deduplicated
by id, then kept only when their haversine distance from the user is within
`max_distance_km`; each kept hospital is paired with that distance. -/
noncomputable def get_hospitals_by_disease_and_location
    (db : DB) (disease_id : ℤ) (user_latitude user_longitude : ℝ)
    (max_distance_km : ℝ) : List (Hospital × ℝ) :=
  let department_ids :=
    (db.departmentDiseases.filter (fun r => decide (r.disease_id = disease_id))).map
      (·.department_id)
  let hospital_ids : List ℤ :=
    ((db.hospitals.filter (fun h =>
        (db.hospitalDepartments.any (fun hd =>
          decide (hd.hospital_id = h.id) && decide (hd.department_id ∈ department_ids))) &&
        (match h.hospital_type_name with
          | some t => decide (t ∉ HOSPITAL_TYPE_EXCLUDE)
          | none => false))).map (·.id)).dedup
  let hospitals_with_departments :=
    db.hospitals.filter (fun h => decide (h.id ∈ hospital_ids))
  (hospitals_with_departments.map (fun h =>
      (h, calculate_distance user_latitude user_longitude h.latitude h.longitude))).filter
    (fun p => decide (p.2 ≤ max_distance_km))

/-- A scored candidate (the dict built in step 6 of `recommend_hospitals`
and in the endpoint loop), generic in the numeric score type. -/
structure ScoredHospital (α : Type) where
  hospital : Hospital
  score : α
  priority : ℤ
  distance : α
  department_match : Bool
  equipment_match : Bool
  breakdown_distance_score : α

/-- `equipment_match` as assembled in both call paths:
`len(set(required) & set(held)) > 0 if required_equipment else True`. -/
def equipmentMatch (required held : List String) : Bool :=
  if required ≠ [] then decide (0 < matchedCount required held) else true

/-- The Boolean sort comparison realising
`sort(key=lambda x: (x["score"], x.get("priority", 0)), reverse=True)`:
`a` may stay before `b` iff `a`'s key is lexicographically ≥ `b`'s. -/
noncomputable def scoredLE {α : Type} [LinearOrder α] (a b : ScoredHospital α) : Bool :=
  decide (b.score < a.score ∨ (b.score = a.score ∧ b.priority ≤ a.priority))

/-- The sort of step 7 (line 420-422 / endpoint line 605): stable sort,
descending lexicographically by (score, priority). -/
noncomputable def sortScored {α : Type} [LinearOrder α]
    (l : List (ScoredHospital α)) : List (ScoredHospital α) :=
  l.mergeSort scoredLE

/-- `limit` handling of the service path (lines 424-428): `None` or a
non-positive limit returns all sorted candidates, otherwise the first
`limit`. -/
noncomputable def serviceSelect {α : Type} [LinearOrder α]
    (scored : List (ScoredHospital α)) (limit : Option ℤ) : List (ScoredHospital α) :=
  let sorted := sortScored scored
  match limit with
  | none => sorted
  | some k => if k ≤ 0 then sorted else sorted.take k.toNat

/-- Python `x or d` on an optional integer: `None` and `0` give the
default. -/
def pyOrInt (x : Option ℤ) (d : ℤ) : ℤ :=
  match x with
  | none => d
  | some v => if v = 0 then d else v

/-- Python `x or d` on an optional float: `None` and `0.0` give the
default. -/
noncomputable def pyOrR (x : Option ℝ) (d : ℝ) : ℝ :=
  match x with
  | none => d
  | some v => if v = 0 then d else v

/-- Python slice `l[:k]` including negative-index semantics:
for `k ≥ 0` the first `k` elements, for `k < 0` all but the last `|k|`. -/
def pySlice {β : Type} (l : List β) (k : ℤ) : List β :=
  if 0 ≤ k then l.take k.toNat else l.take (l.length - k.natAbs)

/-- `limit` handling of the endpoint path (`medical.py` lines 605-606):
`top = scored[: int(request_data.limit or 3)]`. -/
noncomputable def endpointSelect {α : Type} [LinearOrder α]
    (scored : List (ScoredHospital α)) (limit : Option ℤ) : List (ScoredHospital α) :=
  pySlice (sortScored scored) (pyOrInt limit 3)

/-- Rank assignment of step 8 (`enumerate(top_hospitals, 1)`): pair each
selected candidate with its 1-based position. -/
def assignRanks {α : Type} (l : List (ScoredHospital α)) :
    List (ℕ × ScoredHospital α) :=
  (List.range' 1 l.length).zip l

/-- Steps 4-8 of `recommend_hospitals` (lines 296-456): filter candidates,
resolve required equipment, score every candidate, sort, truncate by
`limit`, assign dense ranks.  (Persistence of the rows, steps 9-10, is
outside the pure computation.) -/
noncomputable def recommend_hospitals_core
    (db : DB) (disease_id : ℤ) (user_latitude user_longitude : ℝ)
    (max_distance_km : ℝ) (limit : Option ℤ) : List (ℕ × ScoredHospital ℝ) :=
  let candidates :=
    get_hospitals_by_disease_and_location db disease_id
      user_latitude user_longitude max_distance_km
  let required_equipment := get_required_equipment_for_disease db disease_id
  let scored := candidates.map (fun c =>
    let he := get_hospital_equipment db c.1.id
    let sc := get_specialist_count_for_hospital_and_disease db c.1.id disease_id
    let r := calculate_recommendation_score c.2 required_equipment he
      (some sc) c.1.hospital_type_name max_distance_km
    { hospital := c.1, score := r.final_score, priority := r.priority,
      distance := c.2, department_match := true,
      equipment_match := equipmentMatch required_equipment he,
      breakdown_distance_score := r.distance_score })
  assignRanks (serviceSelect scored limit)

/-- Candidate-filter radius of the endpoint path (`medical.py` line 539):
`float(request_data.max_distance or 20.0)`. -/
noncomputable def endpointFilterRadius (max_distance : Option ℝ) : ℝ :=
  pyOrR max_distance 20

/-- Scoring radius of the endpoint path (`medical.py` line 576):
`float(request_data.max_distance or 5.0)`. -/
noncomputable def endpointScoreRadius (max_distance : Option ℝ) : ℝ :=
  pyOrR max_distance 5

/-- The `recommend_by_disease` endpoint pipeline (`medical.py` lines
532-612): candidates filtered with the 20 km fallback radius, scores
computed with the 5 km fallback radius, sort, `scored[:int(limit or 3)]`,
dense ranks. -/
noncomputable def recommend_by_disease_core
    (db : DB) (disease_id : ℤ) (user_latitude user_longitude : ℝ)
    (max_distance : Option ℝ) (limit : Option ℤ) : List (ℕ × ScoredHospital ℝ) :=
  let candidates :=
    get_hospitals_by_disease_and_location db disease_id
      user_latitude user_longitude (endpointFilterRadius max_distance)
  let required_equipment := get_required_equipment_for_disease db disease_id
  let scored := candidates.map (fun c =>
    let he := get_hospital_equipment db c.1.id
    let sc := get_specialist_count_for_hospital_and_disease db c.1.id disease_id
    let r := calculate_recommendation_score c.2 required_equipment he
      (some sc) c.1.hospital_type_name (endpointScoreRadius max_distance)
    { hospital := c.1, score := r.final_score, priority := r.priority,
      distance := c.2, department_match := true,
      equipment_match := equipmentMatch required_equipment he,
      breakdown_distance_score := r.distance_score })
  assignRanks (endpointSelect scored limit)

/-- Negating the angular difference does not change the squared half-angle
sine term of the haversine formula. -/
theorem sin_half_sq_sub_comm (x y : ℝ) :
    Real.sin ((x - y) / 2) ^ 2 = Real.sin ((y - x) / 2) ^ 2 := by
  rw [show (x - y) / 2 = -((y - x) / 2) by ring, Real.sin_neg]
  ring

/-- C9: the haversine distance is symmetric in its two points, zero on a
pair of identical points, and non-negative for all real inputs (Earth
radius 6371 km). -/
theorem C9_distance_symmetric_self_zero_nonneg
    (lat1 lon1 lat2 lon2 : ℝ) :
    calculate_distance lat1 lon1 lat2 lon2 = calculate_distance lat2 lon2 lat1 lon1 ∧
    calculate_distance lat1 lon1 lat1 lon1 = 0 ∧
    0 ≤ calculate_distance lat1 lon1 lat2 lon2 := by
  refine ⟨?_, ?_, ?_⟩
  · simp only [calculate_distance]
    rw [sin_half_sq_sub_comm (radians lat2) (radians lat1),
      sin_half_sq_sub_comm (radians lon2) (radians lon1),
      mul_comm (Real.cos (radians lat1)) (Real.cos (radians lat2))]
  · simp only [calculate_distance, sub_self, zero_div, Real.sin_zero]
    norm_num [atan2]
    rw [show (⟨1, 0⟩ : ℂ) = (1 : ℂ) by apply Complex.ext <;> simp]
    simp
  · simp only [calculate_distance]
    have h1 : 0 ≤ atan2 (Real.sqrt (Real.sin ((radians lat2 - radians lat1) / 2) ^ 2 +
        Real.cos (radians lat1) * Real.cos (radians lat2) *
          Real.sin ((radians lon2 - radians lon1) / 2) ^ 2))
        (Real.sqrt (1 - (Real.sin ((radians lat2 - radians lat1) / 2) ^ 2 +
        Real.cos (radians lat1) * Real.cos (radians lat2) *
          Real.sin ((radians lon2 - radians lon1) / 2) ^ 2))) := by
      rw [atan2, Complex.arg_nonneg_iff]
      simp
    positivity

/-- C7: `equipment_match` is true exactly when the requirement list is
empty or some required category is held; in particular it is vacuously
true for every candidate when nothing is required. -/
theorem C7_equipment_match_iff (required held : List String) :
    (equipmentMatch required held = true ↔
      required = [] ∨ ∃ x ∈ required, x ∈ held) ∧
    (required = [] → equipmentMatch required held = true) := by
  constructor
  · by_cases hreq : required = []
    · simp [equipmentMatch, hreq]
    · simp only [equipmentMatch, if_pos (by simpa using hreq)]
      rw [decide_eq_true_eq]
      constructor
      · intro h
        rcases List.exists_mem_of_length_pos h with ⟨x, hx⟩
        rw [List.mem_filter] at hx
        exact Or.inr ⟨x, List.mem_dedup.mp hx.1, by simpa using hx.2⟩
      · rintro (h | ⟨x, hxr, hxh⟩)
        · exact absurd h hreq
        · have hx : x ∈ (required.dedup.filter (fun y => decide (y ∈ held))) :=
            List.mem_filter.mpr ⟨List.mem_dedup.mpr hxr, by simpa using hxh⟩
          exact List.length_pos.mpr (fun hnil => by
            rw [hnil] at hx; exact (List.not_mem_nil x) hx)
  · intro h
    simp [equipmentMatch, h]

/-- C8: the distance sub-score denominator is the radius when positive and
5.0 otherwise (hence always positive — no division by zero), the sub-score
follows `max(0, (R - d)/R) * W_dist`, and it is never negative; with a zero
radius the 5.0 km fallback denominator is used. -/
theorem C8_radius_fallback_distance_score_nonneg
    (d mx : ℝ) (req held : List String) (sc : Option ℤ) (ty : Option String) :
    0 < (if 0 < mx then mx else 5) ∧
    (calculate_recommendation_score d req held sc ty mx).distance_score =
      max 0 (((if 0 < mx then mx else 5) - d) / (if 0 < mx then mx else 5)) *
        (calculate_recommendation_score d req held sc ty mx).W_DIST ∧
    0 ≤ (calculate_recommendation_score d req held sc ty mx).distance_score ∧
    (mx = 0 → (calculate_recommendation_score d req held sc ty mx).distance_score =
      max 0 ((5 - d) / 5) *
        (calculate_recommendation_score d req held sc ty mx).W_DIST) := by
  have hW : 0 ≤ (calculate_recommendation_score d req held sc ty mx).W_DIST := by
    by_cases hreq : req = [] <;>
      simp [calculate_recommendation_score, selectWeights, hreq]
  refine ⟨by split <;> linarith, rfl, ?_, ?_⟩
  · exact mul_nonneg (le_max_left 0 _) hW
  · intro h
    simp [calculate_recommendation_score, distance_score_calc, h]

theorem sqrt_hundred : Real.sqrt 100 = 10 := by
  rw [show (100 : ℝ) = 10 ^ 2 by norm_num, Real.sqrt_sq (by norm_num : (0:ℝ) ≤ 10)]

theorem sqrt_nine : Real.sqrt 9 = 3 := by
  rw [show (9 : ℝ) = 3 ^ 2 by norm_num, Real.sqrt_sq (by norm_num : (0:ℝ) ≤ 3)]

/-- The intermediate clamp of the specialist count at 100 does not change
the capped specialist sub-score. -/
theorem specialist_unclamp (x W : ℝ) (hW : 0 ≤ W) :
    min (Real.sqrt (min (max x 0) 100) * (W / 3)) W
      = min (Real.sqrt (max x 0) * (W / 3)) W := by
  by_cases hx : x ≤ 100
  · rw [min_eq_left (max_le hx (by norm_num))]
  · push_neg at hx
    rw [max_eq_left (by linarith : (0:ℝ) ≤ x),
      min_eq_right (by linarith : (100:ℝ) ≤ x)]
    have h10 : (10 : ℝ) ≤ Real.sqrt x := by
      calc (10 : ℝ) = Real.sqrt 100 := sqrt_hundred.symm
        _ ≤ Real.sqrt x := Real.sqrt_le_sqrt (by linarith)
    rw [sqrt_hundred]
    rw [min_eq_right (by linarith : W ≤ 10 * (W / 3)),
      min_eq_right ?_]
    have := mul_le_mul_of_nonneg_right h10 (by linarith : (0:ℝ) ≤ W / 3)
    linarith

/-- Nine or more specialists saturate the specialist sub-score at its
weight cap. -/
theorem specialist_cap (x W : ℝ) (hW : 0 ≤ W) (hx : 9 ≤ x) :
    min (Real.sqrt (min (max x 0) 100) * (W / 3)) W = W := by
  have h9 : (9 : ℝ) ≤ min (max x 0) 100 :=
    le_min (le_max_of_le_left hx) (by norm_num)
  have h3 : (3 : ℝ) ≤ Real.sqrt (min (max x 0) 100) := by
    calc (3 : ℝ) = Real.sqrt 9 := sqrt_nine.symm
      _ ≤ _ := Real.sqrt_le_sqrt h9
  have := mul_le_mul_of_nonneg_right h3 (by linarith : (0:ℝ) ≤ W / 3)
  rw [min_eq_right (by linarith)]

/-- C4: the specialist sub-score equals
`min(sqrt(max(specialist_count, 0)) * (W_spec / 3), W_spec)` (None treated
as 0), is never negative, and hits the cap `W_spec` from 9 specialists on. -/
theorem C4_specialist_score
    (d : ℝ) (req held : List String) (sc : Option ℤ) (ty : Option String) (mx : ℝ) :
    (calculate_recommendation_score d req held sc ty mx).specialist_score =
      min (Real.sqrt ((max (sc.getD 0) 0 : ℤ) : ℝ) *
        ((calculate_recommendation_score d req held sc ty mx).W_SPEC / 3))
        (calculate_recommendation_score d req held sc ty mx).W_SPEC ∧
    0 ≤ (calculate_recommendation_score d req held sc ty mx).specialist_score ∧
    ((9 : ℤ) ≤ sc.getD 0 →
      (calculate_recommendation_score d req held sc ty mx).specialist_score =
        (calculate_recommendation_score d req held sc ty mx).W_SPEC) := by
  have hW : 0 ≤ (calculate_recommendation_score d req held sc ty mx).W_SPEC := by
    by_cases hreq : req = [] <;>
      simp [calculate_recommendation_score, selectWeights, hreq]
  have hform : (calculate_recommendation_score d req held sc ty mx).specialist_score =
      specialist_score_calc (calculate_recommendation_score d req held sc ty mx).W_SPEC sc := by
    by_cases hreq : req = [] <;>
      simp [calculate_recommendation_score, selectWeights, hreq,
        specialist_score_calc]
  refine ⟨?_, ?_, ?_⟩
  · rw [hform, specialist_score_calc]
    push_cast
    exact specialist_unclamp _ _ hW
  · rw [hform, specialist_score_calc]
    refine le_min (mul_nonneg (Real.sqrt_nonneg _) (by linarith)) hW
  · intro h9
    rw [hform, specialist_score_calc]
    push_cast
    exact specialist_cap _ _ hW (by exact_mod_cast h9)

/-- C3 (amended): the weight regimes and equipment sub-score formulas,
with `|held|` the raw length of the held-equipment list; the three weights
always sum to 100 and depend only on the emptiness of the requirement
list. -/
theorem C3_weights_and_equipment_score
    (d : ℝ) (req held : List String) (sc : Option ℤ) (ty : Option String) (mx : ℝ) :
    (req ≠ [] →
      (calculate_recommendation_score d req held sc ty mx).W_EQUIP = 50 ∧
      (calculate_recommendation_score d req held sc ty mx).W_SPEC = 30 ∧
      (calculate_recommendation_score d req held sc ty mx).W_DIST = 20 ∧
      (calculate_recommendation_score d req held sc ty mx).equipment_score =
        (matchedCount req held : ℝ) / (req.length : ℝ) * 50) ∧
    (req = [] →
      (calculate_recommendation_score d req held sc ty mx).W_EQUIP = 30 ∧
      (calculate_recommendation_score d req held sc ty mx).W_SPEC = 40 ∧
      (calculate_recommendation_score d req held sc ty mx).W_DIST = 30 ∧
      (calculate_recommendation_score d req held sc ty mx).equipment_score =
        min ((held.length : ℝ) * max ((30 : ℝ) / 12) 2) 30) ∧
    (calculate_recommendation_score d req held sc ty mx).W_EQUIP +
      (calculate_recommendation_score d req held sc ty mx).W_SPEC +
      (calculate_recommendation_score d req held sc ty mx).W_DIST = 100 := by
  refine ⟨fun hreq => ?_, fun hreq => ?_, ?_⟩
  · have hlen : (max 1 req.length) = req.length :=
      max_eq_right (Nat.one_le_iff_ne_zero.mpr
        (fun h => hreq (List.eq_nil_of_length_eq_zero h)))
    simp [calculate_recommendation_score, selectWeights, hreq,
      equipment_score_calc, hlen]
  · simp [calculate_recommendation_score, selectWeights, hreq,
      equipment_score_calc]
  · by_cases hreq : req = [] <;>
      simp [calculate_recommendation_score, selectWeights, hreq] <;> norm_num

/-- C3 counterexample: with no required equipment and a held list whose two
entries name the same category, the code scores the raw list length
(2 · 2.5 = 5), not the distinct-category count (1 · 2.5 = 2.5) claimed. -/
theorem C3_counterexample :
    (calculate_recommendation_score 0 [] ["CT", "CT"] (some 0) none 5).equipment_score = 5 ∧
    min (((["CT", "CT"] : List String).dedup.length : ℝ) * max ((30 : ℝ) / 12) 2) 30 = 5 / 2 ∧
    (5 : ℝ) ≠ 5 / 2 := by
  have hdedup : (["CT", "CT"] : List String).dedup = ["CT"] := by
    simp
  refine ⟨?_, ?_, by norm_num⟩
  · simp only [calculate_recommendation_score, selectWeights, equipment_score_calc]
    norm_num
  · rw [hdedup]
    rw [max_eq_left (by norm_num : (2:ℝ) ≤ 30 / 12),
      min_eq_left (by norm_num : ((([("CT" : String)]).length : ℝ)) * (30 / 12) ≤ 30)]
    norm_num

/-- Every value stored in the priority table lies between 1 and 5. -/
theorem priority_lookup_bounds (t : String) (p : ℤ)
    (h : HOSPITAL_TYPE_PRIORITY.lookup t = some p) : 1 ≤ p ∧ p ≤ 5 := by
  simp only [HOSPITAL_TYPE_PRIORITY, List.lookup] at h
  repeat' split at h
  all_goals simp_all
  all_goals omega

/-- The computed category priority always lies between 0 and 5. -/
theorem priority_calc_bounds (ty : Option String) :
    0 ≤ priority_calc ty ∧ priority_calc ty ≤ 5 := by
  match ty with
  | none => simp [priority_calc]
  | some t =>
    simp only [priority_calc]
    split
    · simp
    · cases h : HOSPITAL_TYPE_PRIORITY.lookup t with
      | none => simp
      | some p =>
        have := priority_lookup_bounds t p h
        simp
        omega

/-- C5 (amended): the known category labels map to their listed priorities
and an unknown non-empty label defaults to 2, but a missing or empty label
yields priority 0; the bonus is `(priority - 2) * 0.5` and therefore lies
in `[-1.0, 1.5]`, not `[-0.5, 1.5]`. -/
theorem C5_priority_mapping_and_bonus
    (d : ℝ) (req held : List String) (sc : Option ℤ) (ty : Option String) (mx : ℝ) :
    (calculate_recommendation_score d req held sc ty mx).priority_bonus =
      (((calculate_recommendation_score d req held sc ty mx).priority : ℝ) - 2) * (1 / 2) ∧
    (-1 : ℝ) ≤ (calculate_recommendation_score d req held sc ty mx).priority_bonus ∧
    (calculate_recommendation_score d req held sc ty mx).priority_bonus ≤ 3 / 2 ∧
    (ty = some "의원" → (calculate_recommendation_score d req held sc ty mx).priority = 5) ∧
    (ty = some "병원" → (calculate_recommendation_score d req held sc ty mx).priority = 5) ∧
    (ty = some "보건지소" → (calculate_recommendation_score d req held sc ty mx).priority = 4) ∧
    (ty = some "보건소" → (calculate_recommendation_score d req held sc ty mx).priority = 4) ∧
    (ty = some "종합병원" → (calculate_recommendation_score d req held sc ty mx).priority = 3) ∧
    (ty = some "한의원" → (calculate_recommendation_score d req held sc ty mx).priority = 1) ∧
    (ty = some "한방병원" → (calculate_recommendation_score d req held sc ty mx).priority = 1) ∧
    (∀ t, ty = some t → t ≠ "" → HOSPITAL_TYPE_PRIORITY.lookup t = none →
      (calculate_recommendation_score d req held sc ty mx).priority = 2) ∧
    (ty = none → (calculate_recommendation_score d req held sc ty mx).priority = 0) ∧
    (ty = some "" → (calculate_recommendation_score d req held sc ty mx).priority = 0) := by
  have hp : (calculate_recommendation_score d req held sc ty mx).priority =
      priority_calc ty := rfl
  have hb : (calculate_recommendation_score d req held sc ty mx).priority_bonus =
      ((priority_calc ty : ℝ) - 2) * (1 / 2) := rfl
  obtain ⟨hlo, hhi⟩ := priority_calc_bounds ty
  have hloR : (0 : ℝ) ≤ (priority_calc ty : ℝ) := by exact_mod_cast hlo
  have hhiR : (priority_calc ty : ℝ) ≤ 5 := by exact_mod_cast hhi
  refine ⟨by rw [hb, hp], by rw [hb]; linarith, by rw [hb]; linarith,
    ?_, ?_, ?_, ?_, ?_, ?_, ?_, ?_, ?_, ?_⟩
  all_goals intro h
  · subst h; simp [hp, priority_calc, HOSPITAL_TYPE_PRIORITY, List.lookup]
  · subst h; simp [hp, priority_calc, HOSPITAL_TYPE_PRIORITY, List.lookup]
  · subst h; simp [hp, priority_calc, HOSPITAL_TYPE_PRIORITY, List.lookup]
  · subst h; simp [hp, priority_calc, HOSPITAL_TYPE_PRIORITY, List.lookup]
  · subst h; simp [hp, priority_calc, HOSPITAL_TYPE_PRIORITY, List.lookup]
  · subst h; simp [hp, priority_calc, HOSPITAL_TYPE_PRIORITY, List.lookup]
  · subst h; simp [hp, priority_calc, HOSPITAL_TYPE_PRIORITY, List.lookup]
  · intro hty hne hlk
    subst hty
    simp [hp, priority_calc, hne, hlk]
  · subst h; simp [hp, priority_calc]
  · subst h; simp [hp, priority_calc]

/-- C5 counterexample: with a missing category label the code assigns
priority 0 (not the claimed default 2) and a bonus of −1.0, outside the
claimed range [−0.5, 1.5]. -/
theorem C5_counterexample :
    (calculate_recommendation_score 0 [] [] (some 0) none 5).priority = 0 ∧
    ((0 : ℤ) ≠ 2) ∧
    (calculate_recommendation_score 0 [] [] (some 0) none 5).priority_bonus = -1 ∧
    ¬ (-(1 / 2) ≤ (calculate_recommendation_score 0 [] [] (some 0) none 5).priority_bonus) := by
  have hb : (calculate_recommendation_score 0 [] [] (some 0) none 5).priority_bonus =
      ((priority_calc none : ℝ) - 2) * (1 / 2) := rfl
  refine ⟨rfl, by norm_num, ?_, ?_⟩
  · rw [hb]; norm_num [priority_calc]
  · rw [hb]; norm_num [priority_calc]

/-- The propositional content of the sort comparison: `a`'s
(score, priority) key is lexicographically ≥ `b`'s. -/
def scoredGE {α : Type} [LinearOrder α] (a b : ScoredHospital α) : Prop :=
  b.score < a.score ∨ (b.score = a.score ∧ b.priority ≤ a.priority)

theorem scoredLE_iff {α : Type} [LinearOrder α] (a b : ScoredHospital α) :
    scoredLE a b = true ↔ scoredGE a b := by
  simp [scoredLE, scoredGE]

theorem scoredLE_trans {α : Type} [LinearOrder α] (a b c : ScoredHospital α)
    (hab : scoredLE a b) (hbc : scoredLE b c) : scoredLE a c := by
  rw [scoredLE_iff] at *
  rcases hab with h1 | ⟨h1, h1p⟩ <;> rcases hbc with h2 | ⟨h2, h2p⟩
  · exact Or.inl (h2.trans h1)
  · exact Or.inl (h2 ▸ h1)
  · exact Or.inl (h1 ▸ h2)
  · exact Or.inr ⟨h2.trans h1, h2p.trans h1p⟩

theorem scoredLE_total {α : Type} [LinearOrder α] (a b : ScoredHospital α) :
    scoredLE a b || scoredLE b a := by
  rcases lt_trichotomy a.score b.score with h | h | h
  · have : scoredLE b a = true := (scoredLE_iff b a).mpr (Or.inl h)
    simp [this]
  · rcases le_total b.priority a.priority with hp | hp
    · have : scoredLE a b = true := (scoredLE_iff a b).mpr (Or.inr ⟨h.symm, hp⟩)
      simp [this]
    · have : scoredLE b a = true := (scoredLE_iff b a).mpr (Or.inr ⟨h, hp⟩)
      simp [this]
  · have : scoredLE a b = true := (scoredLE_iff a b).mpr (Or.inl h)
    simp [this]

theorem sortScored_perm {α : Type} [LinearOrder α] (l : List (ScoredHospital α)) :
    List.Perm (sortScored l) l :=
  List.mergeSort_perm l scoredLE

theorem length_sortScored {α : Type} [LinearOrder α] (l : List (ScoredHospital α)) :
    (sortScored l).length = l.length :=
  (sortScored_perm l).length_eq

theorem mem_sortScored {α : Type} [LinearOrder α] {x : ScoredHospital α}
    {l : List (ScoredHospital α)} (h : x ∈ sortScored l) : x ∈ l :=
  (sortScored_perm l).mem_iff.mp h

theorem sortScored_sorted {α : Type} [LinearOrder α] (l : List (ScoredHospital α)) :
    (sortScored l).Pairwise scoredGE := by
  have h := List.sorted_mergeSort
    (fun a b c hab hbc => scoredLE_trans a b c hab hbc)
    (fun a b => scoredLE_total a b) l
  exact h.imp (fun hab => (scoredLE_iff _ _).mp hab)

theorem mem_of_mem_serviceSelect {α : Type} [LinearOrder α]
    {x : ScoredHospital α} {l : List (ScoredHospital α)} {limit : Option ℤ}
    (h : x ∈ serviceSelect l limit) : x ∈ l := by
  unfold serviceSelect at h
  match limit with
  | none => exact mem_sortScored h
  | some k =>
    simp only at h
    split at h
    · exact mem_sortScored h
    · exact mem_sortScored ((List.take_sublist _ _).mem h)

theorem mem_of_mem_endpointSelect {α : Type} [LinearOrder α]
    {x : ScoredHospital α} {l : List (ScoredHospital α)} {limit : Option ℤ}
    (h : x ∈ endpointSelect l limit) : x ∈ l := by
  unfold endpointSelect pySlice at h
  split at h
  · exact mem_sortScored ((List.take_sublist _ _).mem h)
  · exact mem_sortScored ((List.take_sublist _ _).mem h)

theorem mem_of_mem_assignRanks {α : Type} {r : ℕ × ScoredHospital α}
    {l : List (ScoredHospital α)} (h : r ∈ assignRanks l) : r.2 ∈ l := by
  unfold assignRanks at h
  exact (List.of_mem_zip h).2

/-- Ranks paired by `assignRanks` are exactly `1, 2, ..., length`. -/
theorem assignRanks_fst {α : Type} (l : List (ScoredHospital α)) :
    (assignRanks l).map Prod.fst = List.range' 1 l.length := by
  unfold assignRanks
  exact List.map_fst_zip _ _ (by simp)

/-- Length of the service-path selection. -/
theorem length_serviceSelect {α : Type} [LinearOrder α]
    (l : List (ScoredHospital α)) (limit : Option ℤ) :
    (serviceSelect l limit).length =
      match limit with
      | none => l.length
      | some k => if k ≤ 0 then l.length else min k.toNat l.length := by
  unfold serviceSelect
  match limit with
  | none => exact length_sortScored l
  | some k =>
    simp only
    split
    · simp [length_sortScored]
    · simp [length_sortScored]

/-- C1: the service-path output is sorted descending lexicographically by
(final score, category priority), and its rank fields are exactly the
dense sequence `1..min(N, L)` (`1..N` when the limit is absent or ≤ 0). -/
theorem C1_sort_order_and_rank_density
    (l : List (ScoredHospital ℝ)) (limit : Option ℤ) :
    (serviceSelect l limit).Pairwise scoredGE ∧
    (assignRanks (serviceSelect l limit)).map Prod.fst =
      List.range' 1 (match limit with
        | none => l.length
        | some k => if k ≤ 0 then l.length else min k.toNat l.length) := by
  constructor
  · unfold serviceSelect
    match limit with
    | none => exact sortScored_sorted l
    | some k =>
      simp only
      split
      · exact sortScored_sorted l
      · exact (sortScored_sorted l).sublist (List.take_sublist _ _)
  · rw [assignRanks_fst, length_serviceSelect]

/-- C2 (amended): limit semantics in the two call paths.  Service path:
`None` or ≤ 0 returns all scored candidates, a positive limit the first
`limit` of them.  Endpoint path (`scored[:int(limit or 3)]`): absent or
zero limit truncates to 3, a positive limit to `limit`, and a negative
limit drops the last `|limit|` candidates. -/
theorem C2_limit_semantics
    (l : List (ScoredHospital ℝ)) (limit : Option ℤ) :
    ((limit = none ∨ ∃ k, limit = some k ∧ k ≤ 0) →
      serviceSelect l limit = sortScored l ∧
      (serviceSelect l limit).length = l.length) ∧
    (∀ k, limit = some k → 0 < k →
      serviceSelect l limit = (sortScored l).take k.toNat ∧
      (serviceSelect l limit).length = min k.toNat l.length) ∧
    ((limit = none ∨ limit = some 0) →
      (endpointSelect l limit).length = min 3 l.length) ∧
    (∀ k, limit = some k → 0 < k →
      (endpointSelect l limit).length = min k.toNat l.length) ∧
    (∀ k, limit = some k → k < 0 →
      (endpointSelect l limit).length = l.length - k.natAbs) := by
  refine ⟨?_, ?_, ?_, ?_, ?_⟩
  · rintro (h | ⟨k, hk, hk0⟩)
    · subst h; exact ⟨rfl, length_sortScored l⟩
    · subst hk
      constructor
      · unfold serviceSelect
        simp [hk0]
      · rw [length_serviceSelect]
        simp [hk0]
  · intro k hk hk0
    subst hk
    constructor
    · unfold serviceSelect
      simp [not_le.mpr hk0]
    · rw [length_serviceSelect]
      simp [not_le.mpr hk0]
  · rintro (h | h) <;> subst h <;>
      simp [endpointSelect, pyOrInt, pySlice, length_sortScored]
  · intro k hk hk0
    subst hk
    unfold endpointSelect pySlice pyOrInt
    simp only [if_neg (by omega : ¬ k = 0), if_pos (le_of_lt hk0)]
    simp [length_sortScored]
  · intro k hk hk0
    subst hk
    unfold endpointSelect pySlice pyOrInt
    simp only [if_neg (by omega : ¬ k = 0), if_neg (not_le.mpr hk0)]
    simp [length_sortScored]

/-- C2 counterexample: in the endpoint path a zero (falsy) limit does not
return all scored candidates — four candidates yield only three results,
because `scored[:int(request_data.limit or 3)]` falls back to 3. -/
theorem C2_counterexample :
    (endpointSelect
      ([⟨⟨0, 0, 0, none⟩, 0, 0, 0, true, true, 0⟩,
        ⟨⟨0, 0, 0, none⟩, 0, 0, 0, true, true, 0⟩,
        ⟨⟨0, 0, 0, none⟩, 0, 0, 0, true, true, 0⟩,
        ⟨⟨0, 0, 0, none⟩, 0, 0, 0, true, true, 0⟩] : List (ScoredHospital ℝ))
      (some 0)).length ≠
    ([⟨⟨0, 0, 0, none⟩, 0, 0, 0, true, true, 0⟩,
      ⟨⟨0, 0, 0, none⟩, 0, 0, 0, true, true, 0⟩,
      ⟨⟨0, 0, 0, none⟩, 0, 0, 0, true, true, 0⟩,
      ⟨⟨0, 0, 0, none⟩, 0, 0, 0, true, true, 0⟩] : List (ScoredHospital ℝ)).length := by
  simp [endpointSelect, pyOrInt, pySlice, length_sortScored]

/-- Every candidate is a database hospital row and lies within the search
radius. -/
theorem mem_candidates_basic (db : DB) (did : ℤ) (ulat ulon maxd : ℝ) :
    ∀ p ∈ get_hospitals_by_disease_and_location db did ulat ulon maxd,
      p.1 ∈ db.hospitals ∧ p.2 ≤ maxd := by
  intro p hp
  simp only [get_hospitals_by_disease_and_location] at hp
  rw [List.mem_filter] at hp
  obtain ⟨hmem, hle⟩ := hp
  rw [List.mem_map] at hmem
  obtain ⟨h, hh, rfl⟩ := hmem
  rw [List.mem_filter] at hh
  exact ⟨hh.1, by simpa using hle⟩

/-- With unique hospital ids (the primary key), no candidate's category is
in the exclusion set. -/
theorem mem_candidates_not_excluded (db : DB) (did : ℤ) (ulat ulon maxd : ℝ)
    (hnodup : (db.hospitals.map Hospital.id).Nodup) :
    ∀ p ∈ get_hospitals_by_disease_and_location db did ulat ulon maxd,
      ∀ t, p.1.hospital_type_name = some t → t ∉ HOSPITAL_TYPE_EXCLUDE := by
  intro p hp t ht
  simp only [get_hospitals_by_disease_and_location] at hp
  rw [List.mem_filter] at hp
  obtain ⟨hmem, _⟩ := hp
  rw [List.mem_map] at hmem
  obtain ⟨h, hh, rfl⟩ := hmem
  rw [List.mem_filter] at hh
  obtain ⟨hdb, hid⟩ := hh
  rw [decide_eq_true_eq, List.mem_dedup, List.mem_map] at hid
  obtain ⟨h', hh', hid⟩ := hid
  rw [List.mem_filter] at hh'
  obtain ⟨hdb', hpred⟩ := hh'
  have heq : h' = h := List.inj_on_of_nodup_map hnodup hdb' hdb hid
  subst heq
  rw [Bool.and_eq_true] at hpred
  have htype := hpred.2
  rw [ht] at htype
  simpa using htype

/-- The candidate hospital ids, projected from the pipeline, are a sublist
of the database hospital ids. -/
theorem candidates_ids_sublist (db : DB) (did : ℤ) (ulat ulon maxd : ℝ) :
    List.Sublist
      ((get_hospitals_by_disease_and_location db did ulat ulon maxd).map
        (fun p => p.1.id))
      (db.hospitals.map Hospital.id) := by
  simp only [get_hospitals_by_disease_and_location]
  refine ((List.filter_sublist _).map _).trans ?_
  rw [List.map_map]
  exact (List.filter_sublist _).map _

/-- Selecting after the sort preserves distinctness of any projection of
the scored records. -/
theorem serviceSelect_map_nodup {α : Type} [LinearOrder α] {β : Type}
    (f : ScoredHospital α → β) (l : List (ScoredHospital α)) (limit : Option ℤ)
    (h : (l.map f).Nodup) :
    ((serviceSelect l limit).map f).Nodup := by
  have hperm : List.Perm ((sortScored l).map f) (l.map f) :=
    (sortScored_perm l).map f
  have hsorted : ((sortScored l).map f).Nodup := hperm.nodup_iff.mpr h
  unfold serviceSelect
  match limit with
  | none => exact hsorted
  | some k =>
    simp only
    split
    · exact hsorted
    · rw [List.map_take]
      exact hsorted.sublist (List.take_sublist _ _)

/-- C6: no hospital with an excluded category appears among the candidates
or in the final service-path results, and (with the primary-key uniqueness
of hospital ids) each hospital appears in the results at most once. -/
theorem C6_exclusion_and_uniqueness (db : DB) (did : ℤ) (ulat ulon maxd : ℝ)
    (limit : Option ℤ)
    (hnodup : (db.hospitals.map Hospital.id).Nodup) :
    (∀ p ∈ get_hospitals_by_disease_and_location db did ulat ulon maxd,
      ∀ t, p.1.hospital_type_name = some t → t ∉ HOSPITAL_TYPE_EXCLUDE) ∧
    (∀ r ∈ recommend_hospitals_core db did ulat ulon maxd limit,
      ∀ t, r.2.hospital.hospital_type_name = some t → t ∉ HOSPITAL_TYPE_EXCLUDE) ∧
    ((recommend_hospitals_core db did ulat ulon maxd limit).map
      (fun r => r.2.hospital.id)).Nodup := by
  refine ⟨mem_candidates_not_excluded db did ulat ulon maxd hnodup, ?_, ?_⟩
  · intro r hr t ht
    simp only [recommend_hospitals_core] at hr
    have h2 := mem_of_mem_serviceSelect (mem_of_mem_assignRanks hr)
    rw [List.mem_map] at h2
    obtain ⟨c, hc, hcr⟩ := h2
    have hhosp : r.2.hospital = c.1 := by rw [← hcr]
    rw [hhosp] at ht
    exact mem_candidates_not_excluded db did ulat ulon maxd hnodup c hc t ht
  · simp only [recommend_hospitals_core]
    have hzip : (assignRanks (serviceSelect
        ((get_hospitals_by_disease_and_location db did ulat ulon maxd).map (fun c =>
          ({ hospital := c.1,
             score := (calculate_recommendation_score c.2
               (get_required_equipment_for_disease db did)
               (get_hospital_equipment db c.1.id)
               (some (get_specialist_count_for_hospital_and_disease db c.1.id did))
               c.1.hospital_type_name maxd).final_score,
             priority := (calculate_recommendation_score c.2
               (get_required_equipment_for_disease db did)
               (get_hospital_equipment db c.1.id)
               (some (get_specialist_count_for_hospital_and_disease db c.1.id did))
               c.1.hospital_type_name maxd).priority,
             distance := c.2, department_match := true,
             equipment_match := equipmentMatch
               (get_required_equipment_for_disease db did)
               (get_hospital_equipment db c.1.id),
             breakdown_distance_score := (calculate_recommendation_score c.2
               (get_required_equipment_for_disease db did)
               (get_hospital_equipment db c.1.id)
               (some (get_specialist_count_for_hospital_and_disease db c.1.id did))
               c.1.hospital_type_name maxd).distance_score } : ScoredHospital ℝ)))
        limit)).map Prod.snd =
        serviceSelect
        ((get_hospitals_by_disease_and_location db did ulat ulon maxd).map (fun c =>
          ({ hospital := c.1,
             score := (calculate_recommendation_score c.2
               (get_required_equipment_for_disease db did)
               (get_hospital_equipment db c.1.id)
               (some (get_specialist_count_for_hospital_and_disease db c.1.id did))
               c.1.hospital_type_name maxd).final_score,
             priority := (calculate_recommendation_score c.2
               (get_required_equipment_for_disease db did)
               (get_hospital_equipment db c.1.id)
               (some (get_specialist_count_for_hospital_and_disease db c.1.id did))
               c.1.hospital_type_name maxd).priority,
             distance := c.2, department_match := true,
             equipment_match := equipmentMatch
               (get_required_equipment_for_disease db did)
               (get_hospital_equipment db c.1.id),
             breakdown_distance_score := (calculate_recommendation_score c.2
               (get_required_equipment_for_disease db did)
               (get_hospital_equipment db c.1.id)
               (some (get_specialist_count_for_hospital_and_disease db c.1.id did))
               c.1.hospital_type_name maxd).distance_score } : ScoredHospital ℝ)))
        limit := by
      unfold assignRanks
      exact List.map_snd_zip _ _ (by simp)
    have hids : (((get_hospitals_by_disease_and_location db did ulat ulon maxd).map
        (fun c =>
          ({ hospital := c.1,
             score := (calculate_recommendation_score c.2
               (get_required_equipment_for_disease db did)
               (get_hospital_equipment db c.1.id)
               (some (get_specialist_count_for_hospital_and_disease db c.1.id did))
               c.1.hospital_type_name maxd).final_score,
             priority := (calculate_recommendation_score c.2
               (get_required_equipment_for_disease db did)
               (get_hospital_equipment db c.1.id)
               (some (get_specialist_count_for_hospital_and_disease db c.1.id did))
               c.1.hospital_type_name maxd).priority,
             distance := c.2, department_match := true,
             equipment_match := equipmentMatch
               (get_required_equipment_for_disease db did)
               (get_hospital_equipment db c.1.id),
             breakdown_distance_score := (calculate_recommendation_score c.2
               (get_required_equipment_for_disease db did)
               (get_hospital_equipment db c.1.id)
               (some (get_specialist_count_for_hospital_and_disease db c.1.id did))
               c.1.hospital_type_name maxd).distance_score } : ScoredHospital ℝ))).map
        (fun x => x.hospital.id)).Nodup := by
      rw [List.map_map]
      exact ((candidates_ids_sublist db did ulat ulon maxd).nodup hnodup)
    have := serviceSelect_map_nodup (fun x => x.hospital.id) _ limit hids
    rw [show (fun r : ℕ × ScoredHospital ℝ => r.2.hospital.id) =
        (fun x : ScoredHospital ℝ => x.hospital.id) ∘ Prod.snd from rfl,
      ← List.map_map, hzip]
    exact this

/-- C10: when the endpoint's `max_distance` is absent or 0, candidates are
filtered with the 20.0 km fallback radius while scoring uses the 5.0 km
fallback denominator, so every returned candidate keeps a distance of up to
20 km, and any returned candidate farther than 5 km has distance sub-score
0 yet still appears. -/
theorem C10_endpoint_radius_mismatch (db : DB) (did : ℤ) (ulat ulon : ℝ)
    (md : Option ℝ) (limit : Option ℤ)
    (hmd : md = none ∨ md = some 0) :
    endpointFilterRadius md = 20 ∧
    endpointScoreRadius md = 5 ∧
    (∀ r ∈ recommend_by_disease_core db did ulat ulon md limit,
      r.2.distance ≤ 20 ∧
      (5 < r.2.distance → r.2.breakdown_distance_score = 0)) := by
  have hf : endpointFilterRadius md = 20 := by
    rcases hmd with h | h <;> subst h <;> simp [endpointFilterRadius, pyOrR]
  have hs : endpointScoreRadius md = 5 := by
    rcases hmd with h | h <;> subst h <;> simp [endpointScoreRadius, pyOrR]
  refine ⟨hf, hs, ?_⟩
  intro r hr
  simp only [recommend_by_disease_core] at hr
  have h2 := mem_of_mem_endpointSelect (mem_of_mem_assignRanks hr)
  rw [List.mem_map] at h2
  obtain ⟨c, hc, hcr⟩ := h2
  have hdist : r.2.distance = c.2 := by rw [← hcr]
  have hbrk : r.2.breakdown_distance_score =
      (calculate_recommendation_score c.2
        (get_required_equipment_for_disease db did)
        (get_hospital_equipment db c.1.id)
        (some (get_specialist_count_for_hospital_and_disease db c.1.id did))
        c.1.hospital_type_name (endpointScoreRadius md)).distance_score := by
    rw [← hcr]
  constructor
  · rw [hdist]
    have := (mem_candidates_basic db did ulat ulon (endpointFilterRadius md) c hc).2
    rw [hf] at this
    exact this
  · intro hfar
    rw [hdist] at hfar
    rw [hbrk, hs]
    simp only [calculate_recommendation_score, distance_score_calc]
    rw [if_pos (by norm_num : (0:ℝ) < 5)]
    rw [max_eq_left (by cancel_denoms; linarith : (5 - c.2) / 5 ≤ 0)]
    exact zero_mul _

/-- Witness for C2 at the empty scored list with an absent limit. -/
theorem C2_limit_semantics_witness :
    serviceSelect ([] : List (ScoredHospital ℝ)) none = sortScored [] ∧
    (serviceSelect ([] : List (ScoredHospital ℝ)) none).length =
      ([] : List (ScoredHospital ℝ)).length :=
  (C2_limit_semantics [] none).1 (Or.inl rfl)

/-- Witness for C3 in the non-empty-requirement regime. -/
theorem C3_weights_witness :
    (calculate_recommendation_score 0 ["X"] [] (some 0) none 5).W_EQUIP = 50 :=
  ((C3_weights_and_equipment_score 0 ["X"] [] (some 0) none 5).1 (by simp)).1

/-- Witness for C4: nine specialists reach the weight cap. -/
theorem C4_specialist_witness :
    (calculate_recommendation_score 0 [] [] (some 9) none 5).specialist_score =
      (calculate_recommendation_score 0 [] [] (some 9) none 5).W_SPEC :=
  (C4_specialist_score 0 [] [] (some 9) none 5).2.2 (by decide)

/-- Witness for C5: the clinic label maps to priority 5. -/
theorem C5_priority_witness :
    (calculate_recommendation_score 0 [] [] (some 0) (some "의원") 5).priority = 5 :=
  (C5_priority_mapping_and_bonus 0 [] [] (some 0) (some "의원") 5).2.2.2.1 rfl

/-- Witness for C6 at a concrete (empty) database. -/
theorem C6_uniqueness_witness :
    ((recommend_hospitals_core ⟨[], [], [], [], []⟩ 0 0 0 5 none).map
      (fun r => r.2.hospital.id)).Nodup :=
  (C6_exclusion_and_uniqueness ⟨[], [], [], [], []⟩ 0 0 0 5 none (by simp)).2.2

/-- Witness for C7: empty requirement always matches. -/
theorem C7_equipment_match_witness : equipmentMatch [] ["X"] = true :=
  (C7_equipment_match_iff [] ["X"]).2 rfl

/-- Witness for C8: a zero radius uses the 5.0 km fallback denominator. -/
theorem C8_radius_witness :
    (calculate_recommendation_score 1 [] [] (some 0) none 0).distance_score =
      max 0 ((5 - 1) / 5) *
        (calculate_recommendation_score 1 [] [] (some 0) none 0).W_DIST :=
  (C8_radius_fallback_distance_score_nonneg 1 0 [] [] (some 0) none).2.2.2 rfl

/-- Witness for C10 at a concrete (empty) database with absent
`max_distance`. -/
theorem C10_radius_witness : endpointFilterRadius none = 20 :=
  (C10_endpoint_radius_mismatch ⟨[], [], [], [], []⟩ 0 0 0 none none (Or.inl rfl)).1

end MedicBackend
